import Mathlib

/-!
# arm/aarch64/kvm-cpu.c

A shallow embedding of the ARM64 vCPU bring-up code: register addressing
(`__core_reg_id`), feature negotiation and finalization, the reset procedures
and endianness detection.

* Machine integers are natural numbers; the only arithmetic of the file is
  bitwise, and truncation is written out where the C types narrow.
* The calls the file makes on the host (ioctl on the vCPU descriptor,
  sched_setaffinity, the measurer, the capability queries) are recorded in a
  trace; the host decides for each call whether it fails, and what a capability
  query answers.
* The build option RIM_MEASURE is a boolean argument of the functions whose
  text depends on it.
* Constants and offset macros that come from the KVM headers are fields of
  `KvmAbi`.
-/

namespace KvmCpu

/-! ## Constants defined in the file -/

def COMPAT_PSR_F_BIT : Nat := 0x00000040
def COMPAT_PSR_I_BIT : Nat := 0x00000080
def COMPAT_PSR_E_BIT : Nat := 0x00000200
def COMPAT_PSR_MODE_SVC : Nat := 0x00000013

def SCTLR_EL1_E0E_MASK : Nat := 1 <<< 24
def SCTLR_EL1_EE_MASK : Nat := 1 <<< 25

def PSR_MODE_EL0t : Nat := 0x00000000
def PSR_MODE_EL1h : Nat := 0x00000005
def PSR_MODE_MASK : Nat := 0x0000000f
def PSR_MODE32_BIT : Nat := 0x00000010
def PSR_F_BIT : Nat := 0x00000040
def PSR_I_BIT : Nat := 0x00000080
def PSR_A_BIT : Nat := 0x00000100
def PSR_D_BIT : Nat := 0x00000200

/-! ## Constants of the KVM headers -/

/-- The members of struct kvm_regs that the file hands to KVM_REG_ARM_CORE_REG. -/
inductive CoreField where
  | regs_regs (n : Nat)
  | regs_pc
  | regs_pstate
  | sp_el1
  | fp_regs
  | fp_regs_fpsr
  deriving DecidableEq, Repr

/-- The constants and offset macros the file takes from the KVM headers
(asm/kvm.h, linux/kvm.h, kvm/virtio.h). Their text is not part of the source
file, so they are an argument of every function that uses one. -/
structure KvmAbi where
  KVM_REG_ARM64 : Nat
  KVM_REG_ARM_CORE : Nat
  KVM_REG_SIZE_U32 : Nat
  KVM_REG_SIZE_U64 : Nat
  KVM_REG_SIZE_U128 : Nat
  /-- The macro KVM_REG_ARM_CORE_REG: offset of a member in 32-bit words. -/
  KVM_REG_ARM_CORE_REG : CoreField → Nat
  /-- The value of ARM64_SYS_REG(ARM_CPU_CTRL, ARM_CPU_CTRL_SCTLR_EL1). -/
  SYS_REG_SCTLR_EL1 : Nat
  KVM_CAP_ARM_EL1_32BIT : Nat
  KVM_CAP_ARM_PMU_V3 : Nat
  KVM_CAP_ARM_PTRAUTH_ADDRESS : Nat
  KVM_CAP_ARM_PTRAUTH_GENERIC : Nat
  KVM_CAP_ARM_SVE : Nat
  KVM_ARM_VCPU_EL1_32BIT : Nat
  KVM_ARM_VCPU_PMU_V3 : Nat
  KVM_ARM_VCPU_PTRAUTH_ADDRESS : Nat
  KVM_ARM_VCPU_PTRAUTH_GENERIC : Nat
  KVM_ARM_VCPU_SVE : Nat
  KVM_ARM_VCPU_REC : Nat
  VIRTIO_ENDIAN_LE : Nat
  VIRTIO_ENDIAN_BE : Nat

/-! ## Data model -/

/-- The fields of kvm->cfg.arch that the file reads. -/
structure ArchCfg where
  aarch32_guest : Bool
  has_pmuv3 : Bool
  disable_sve : Bool
  is_realm : Bool
  deriving DecidableEq, Repr

/-- The fields of kvm->arch that the file reads. The affinity pointer is
`none` when it is NULL. -/
structure KvmArch where
  realm_is_active : Bool
  vcpu_affinity_cpuset : Option Nat
  dtb_guest_start : Nat
  kern_guest_start : Nat
  deriving DecidableEq, Repr

/-- The part of struct kvm that the file reads. -/
structure Kvm where
  cfg_arch : ArchCfg
  arch : KvmArch
  deriving DecidableEq, Repr

/-- The part of struct kvm_cpu that the file reads. -/
structure Vcpu where
  kvm : Kvm
  cpu_id : Nat
  deriving DecidableEq, Repr

/-- The word features[0] of struct kvm_vcpu_init, a __u32. -/
structure VcpuInit where
  features0 : Nat
  deriving DecidableEq, Repr

/-! ## The host -/

/-- A call the file makes on the host. -/
inductive Op where
  | KVM_SET_ONE_REG (id data : Nat)
  | KVM_GET_ONE_REG (id : Nat)
  | KVM_ARM_VCPU_FINALIZE (feature : Nat)
  | sched_setaffinity (cpuset : Nat)
  | measurer_reset_vcpu_aarch64 (pc flags dtb : Nat)
  | kvm__supports_extension (cap : Nat)
  | kvm__supports_vm_extension (cap : Nat)
  deriving DecidableEq, Repr

/-- The behaviour of the host: which calls fail, given the calls made so far,
and what the capability queries answer (a query is a call too, and is recorded,
but it has no failure of its own: it answers yes or no). -/
structure Host where
  fails : List Op → Op → Bool
  kvm__supports_extension : Nat → Bool
  kvm__supports_vm_extension : Nat → Bool

/-- The state the calls act on: the register file of the vCPU, indexed by
register identifier, and the calls made so far, oldest first. -/
structure World where
  regs : Nat → Nat
  trace : List Op

/-- How a function ends: it returns a value, or the process is aborted by
die or die_perror. -/
inductive Outcome (α : Type) where
  | ret (a : α) (w : World)
  | died (msg : String) (w : World)

/-- The state in which a run ended. -/
def Outcome.world {α : Type} : Outcome α → World
  | .ret _ w => w
  | .died _ w => w

/-- A computation on the host state that may abort. -/
def Run (α : Type) : Type := World → Outcome α

/-- What follows a run: nothing when the process was aborted. -/
def Outcome.andThen {α β : Type} (o : Outcome α) (k : α → World → Outcome β) : Outcome β :=
  match o with
  | .ret a w => k a w
  | .died msg w => .died msg w

/-- Sequencing: an abort ends the run. -/
def Run.bind {α β : Type} (m : Run α) (f : α → Run β) : Run β := fun w =>
  (m w).andThen f

instance : Monad Run where
  pure a := fun w => .ret a w
  bind := Run.bind

/-- The functions die and die_perror: abort the process. -/
def die {α : Type} (msg : String) : Run α := fun w => .died msg w

/-- A call on the host that moves no data: it is recorded, and returns -1 when
it fails and 0 when it succeeds. -/
def hostCall (host : Host) (op : Op) : Run Int := fun w =>
  .ret (if host.fails w.trace op then -1 else 0) { w with trace := w.trace ++ [op] }

/-- The call ioctl(vcpu_fd, KVM_SET_ONE_REG, reg) with reg.id = id and the
64-bit datum behind reg.addr equal to data: on success the register is written. -/
def ioctl_KVM_SET_ONE_REG (host : Host) (id data : Nat) : Run Int := fun w =>
  if host.fails w.trace (.KVM_SET_ONE_REG id data) then
    .ret (-1) { w with trace := w.trace ++ [.KVM_SET_ONE_REG id data] }
  else
    .ret 0 { regs := fun i => if i = id then data else w.regs i,
             trace := w.trace ++ [.KVM_SET_ONE_REG id data] }

/-- The call ioctl(vcpu_fd, KVM_GET_ONE_REG, reg): the return code, and the
value stored behind reg.addr. -/
def ioctl_KVM_GET_ONE_REG (host : Host) (id : Nat) : Run (Int × Nat) := fun w =>
  if host.fails w.trace (.KVM_GET_ONE_REG id) then
    .ret (-1, 0) { w with trace := w.trace ++ [.KVM_GET_ONE_REG id] }
  else
    .ret (0, w.regs id) { w with trace := w.trace ++ [.KVM_GET_ONE_REG id] }

/-- The call ioctl(vcpu_fd, KVM_ARM_VCPU_FINALIZE, feature). -/
def ioctl_KVM_ARM_VCPU_FINALIZE (host : Host) (feature : Nat) : Run Int :=
  hostCall host (.KVM_ARM_VCPU_FINALIZE feature)

/-- The call sched_setaffinity(0, sizeof(cpu_set_t), affinity). -/
def sched_setaffinity (host : Host) (cpuset : Nat) : Run Int :=
  hostCall host (.sched_setaffinity cpuset)

/-- The call measurer_reset_vcpu_aarch64(pc, flags, dtb); it returns nothing. -/
def measurer_reset_vcpu_aarch64 (pc flags dtb : Nat) : Run Unit := fun w =>
  .ret () { w with trace := w.trace ++ [.measurer_reset_vcpu_aarch64 pc flags dtb] }

/-- The call kvm__supports_extension(kvm, cap): the query is recorded and the
host answers it. -/
def kvm__supports_extension (host : Host) (cap : Nat) : Run Bool := fun w =>
  .ret (host.kvm__supports_extension cap)
    { w with trace := w.trace ++ [.kvm__supports_extension cap] }

/-- The call kvm__supports_vm_extension(kvm, cap), the VM-scoped query. -/
def kvm__supports_vm_extension (host : Host) (cap : Nat) : Run Bool := fun w =>
  .ret (host.kvm__supports_vm_extension cap)
    { w with trace := w.trace ++ [.kvm__supports_vm_extension cap] }

/-! ## The functions of the file -/

/-- The function `__core_reg_id`. -/
def __core_reg_id (abi : KvmAbi) (offset : Nat) : Nat :=
  let id := abi.KVM_REG_ARM64 ||| abi.KVM_REG_ARM_CORE ||| offset
  if offset < abi.KVM_REG_ARM_CORE_REG .fp_regs then
    id ||| abi.KVM_REG_SIZE_U64
  else if offset < abi.KVM_REG_ARM_CORE_REG .fp_regs_fpsr then
    id ||| abi.KVM_REG_SIZE_U128
  else
    id ||| abi.KVM_REG_SIZE_U32

/-- The macro ARM64_CORE_REG. -/
def ARM64_CORE_REG (abi : KvmAbi) (x : CoreField) : Nat :=
  __core_reg_id abi (abi.KVM_REG_ARM_CORE_REG x)

/-- The function reset_vcpu_aarch32. A call of die_perror does not return, so
what follows it in the C text is the `else` branch here. -/
def reset_vcpu_aarch32 (abi : KvmAbi) (host : Host) (vcpu : Vcpu) : Run Unit := do
  let kvm := vcpu.kvm
  let r ← ioctl_KVM_SET_ONE_REG host (ARM64_CORE_REG abi .regs_pstate)
    (COMPAT_PSR_I_BIT ||| COMPAT_PSR_F_BIT ||| COMPAT_PSR_MODE_SVC)
  if r < 0 then die "KVM_SET_ONE_REG failed (spsr[EL1])" else
  if vcpu.cpu_id ≠ 0 then pure () else
  let r ← ioctl_KVM_SET_ONE_REG host (ARM64_CORE_REG abi (.regs_regs 0)) 0
  if r < 0 then die "KVM_SET_ONE_REG failed (r0)" else
  let r ← ioctl_KVM_SET_ONE_REG host (ARM64_CORE_REG abi (.regs_regs 1)) (2 ^ 64 - 1)
  if r < 0 then die "KVM_SET_ONE_REG failed (r1)" else
  let r ← ioctl_KVM_SET_ONE_REG host (ARM64_CORE_REG abi (.regs_regs 2))
    kvm.arch.dtb_guest_start
  if r < 0 then die "KVM_SET_ONE_REG failed (r2)" else
  let r ← ioctl_KVM_SET_ONE_REG host (ARM64_CORE_REG abi .regs_pc)
    kvm.arch.kern_guest_start
  if r < 0 then die "KVM_SET_ONE_REG failed (pc)"

/-- The function reset_vcpu_aarch64; `rim_measure` tells whether RIM_MEASURE
is defined. -/
def reset_vcpu_aarch64 (abi : KvmAbi) (rim_measure : Bool) (host : Host) (vcpu : Vcpu) :
    Run Unit := do
  let kvm := vcpu.kvm
  if !rim_measure then
    if !kvm.cfg_arch.is_realm then
      let r ← ioctl_KVM_SET_ONE_REG host (ARM64_CORE_REG abi .regs_pstate)
        (PSR_D_BIT ||| PSR_A_BIT ||| PSR_I_BIT ||| PSR_F_BIT ||| PSR_MODE_EL1h)
      if r < 0 then die "KVM_SET_ONE_REG failed (PSTATE)"
    let r ← ioctl_KVM_SET_ONE_REG host (ARM64_CORE_REG abi (.regs_regs 1)) 0
    if r < 0 then die "KVM_SET_ONE_REG failed (x1)" else
    let r ← ioctl_KVM_SET_ONE_REG host (ARM64_CORE_REG abi (.regs_regs 2)) 0
    if r < 0 then die "KVM_SET_ONE_REG failed (x2)" else
    let r ← ioctl_KVM_SET_ONE_REG host (ARM64_CORE_REG abi (.regs_regs 3)) 0
    if r < 0 then die "KVM_SET_ONE_REG failed (x3)"
  if vcpu.cpu_id = 0 then
    if !rim_measure then
      let r ← ioctl_KVM_SET_ONE_REG host (ARM64_CORE_REG abi (.regs_regs 0))
        kvm.arch.dtb_guest_start
      if r < 0 then die "KVM_SET_ONE_REG failed (x0)" else
      let r ← ioctl_KVM_SET_ONE_REG host (ARM64_CORE_REG abi .regs_pc)
        kvm.arch.kern_guest_start
      if r < 0 then die "KVM_SET_ONE_REG failed (pc)"
    else
      measurer_reset_vcpu_aarch64 kvm.arch.kern_guest_start 0x1 kvm.arch.dtb_guest_start
  else
    measurer_reset_vcpu_aarch64 0 0 0
  if !rim_measure then
    if kvm.cfg_arch.is_realm then
      let r ← ioctl_KVM_ARM_VCPU_FINALIZE host abi.KVM_ARM_VCPU_REC
      if r < 0 then die "KVM_ARM_VCPU_FINALIZE(KVM_ARM_VCPU_REC)"

/-- The statement `init->features[0] |= 1UL << bit`: a 64-bit shift, stored
into a 32-bit word. -/
def setFeature (init : VcpuInit) (bit : Nat) : VcpuInit :=
  { features0 := (init.features0 ||| (1 <<< bit) % 2 ^ 64) % 2 ^ 32 }

/-- The function kvm_cpu__select_features; the result is the structure behind
the pointer `init` at return. The right operand of a C `&&` is a call that is
made only when the left operand holds. -/
def kvm_cpu__select_features (abi : KvmAbi) (rim_measure : Bool) (host : Host) (kvm : Kvm)
    (init : VcpuInit) : Run VcpuInit := do
  let mut init := init
  if kvm.cfg_arch.aarch32_guest then
    let supported ← kvm__supports_extension host abi.KVM_CAP_ARM_EL1_32BIT
    if !supported then
      die "32bit guests are not supported\n"
    init := setFeature init abi.KVM_ARM_VCPU_EL1_32BIT
  if kvm.cfg_arch.has_pmuv3 then
    if !rim_measure then
      let supported ← kvm__supports_extension host abi.KVM_CAP_ARM_PMU_V3
      if !supported then
        die "PMUv3 is not supported"
    init := setFeature init abi.KVM_ARM_VCPU_PMU_V3
  let address ← kvm__supports_extension host abi.KVM_CAP_ARM_PTRAUTH_ADDRESS
  let ptrauth ←
    (if address then kvm__supports_extension host abi.KVM_CAP_ARM_PTRAUTH_GENERIC
     else pure false)
  if ptrauth then
    init := setFeature init abi.KVM_ARM_VCPU_PTRAUTH_ADDRESS
    init := setFeature init abi.KVM_ARM_VCPU_PTRAUTH_GENERIC
  let sve ←
    (if !kvm.cfg_arch.disable_sve then kvm__supports_vm_extension host abi.KVM_CAP_ARM_SVE
     else pure false)
  if sve then
    init := setFeature init abi.KVM_ARM_VCPU_SVE
  return init

/-- The function kvm_cpu__configure_features. The message of pr_err is not
modelled; the capability query of the condition is a recorded call, made only
when disable_sve is clear. -/
def kvm_cpu__configure_features (abi : KvmAbi) (rim_measure : Bool) (host : Host)
    (vcpu : Vcpu) : Run Int := do
  if !rim_measure then
    let kvm := vcpu.kvm
    let sve ←
      (if !kvm.cfg_arch.disable_sve then kvm__supports_vm_extension host abi.KVM_CAP_ARM_SVE
       else pure false)
    if sve then
      let r ← ioctl_KVM_ARM_VCPU_FINALIZE host abi.KVM_ARM_VCPU_SVE
      if r ≠ 0 then pure (-1) else pure 0
    else
      pure 0
  else
    pure 0

/-- The function kvm_cpu__reset_vcpu. -/
def kvm_cpu__reset_vcpu (abi : KvmAbi) (rim_measure : Bool) (host : Host) (vcpu : Vcpu) :
    Run Unit :=
  let kvm := vcpu.kvm
  if kvm.arch.realm_is_active then
    pure ()
  else do
    match kvm.arch.vcpu_affinity_cpuset with
    | some affinity =>
      let ret ← sched_setaffinity host affinity
      if ret = -1 then die "sched_setaffinity"
    | none => pure ()
    if kvm.cfg_arch.aarch32_guest then
      reset_vcpu_aarch32 abi host vcpu
    else
      reset_vcpu_aarch64 abi rim_measure host vcpu

/-- The function kvm_cpu__get_endianness. The pair returned by the register
read is the return code of ioctl and the value stored in `psr` or `sctlr`. -/
def kvm_cpu__get_endianness (abi : KvmAbi) (host : Host) : Run Nat := do
  let (r, psr) ← ioctl_KVM_GET_ONE_REG host (ARM64_CORE_REG abi .regs_pstate)
  if r < 0 then die "KVM_GET_ONE_REG failed (spsr[EL1])" else
  if psr &&& PSR_MODE32_BIT ≠ 0 then
    pure (if psr &&& COMPAT_PSR_E_BIT ≠ 0 then abi.VIRTIO_ENDIAN_BE else abi.VIRTIO_ENDIAN_LE)
  else
  let (r, sctlr) ← ioctl_KVM_GET_ONE_REG host abi.SYS_REG_SCTLR_EL1
  if r < 0 then die "KVM_GET_ONE_REG failed (SCTLR_EL1)" else
  let sctlr :=
    if psr &&& PSR_MODE_MASK = PSR_MODE_EL0t then sctlr &&& SCTLR_EL1_E0E_MASK
    else sctlr &&& SCTLR_EL1_EE_MASK
  pure (if sctlr ≠ 0 then abi.VIRTIO_ENDIAN_BE else abi.VIRTIO_ENDIAN_LE)

/-! ## Reading a run -/

/-- The calls a computation makes when started in `w`. -/
def opsIssued {α : Type} (m : Run α) (w : World) : List Op :=
  (m w).world.trace.drop w.trace.length

/-- The register writes among a list of calls: identifier and datum, in order. -/
def regWrites : List Op → List (Nat × Nat)
  | [] => []
  | .KVM_SET_ONE_REG id data :: ops => (id, data) :: regWrites ops
  | _ :: ops => regWrites ops

/-- The reports to the measurer among a list of calls. -/
def measurerReports : List Op → List (Nat × Nat × Nat)
  | [] => []
  | .measurer_reset_vcpu_aarch64 pc flags dtb :: ops => (pc, flags, dtb) :: measurerReports ops
  | _ :: ops => measurerReports ops

/-- The run returned (the process was not aborted). -/
def Outcome.returned {α : Type} : Outcome α → Bool
  | .ret _ _ => true
  | .died _ _ => false

/-- The value a run returned, if it returned. -/
def Outcome.value? {α : Type} : Outcome α → Option α
  | .ret a _ => some a
  | .died _ _ => none

/-- No call fails on this host. -/
def Host.neverFails (host : Host) : Prop := ∀ t op, host.fails t op = false

/-- The identifiers of the registers the reset procedures write are pairwise
different. -/
def KvmAbi.resetIdsDistinct (abi : KvmAbi) : Prop :=
  ([CoreField.regs_pstate, .regs_regs 0, .regs_regs 1, .regs_regs 2, .regs_regs 3,
    .regs_pc].map (ARM64_CORE_REG abi)).Nodup

instance (abi : KvmAbi) : Decidable abi.resetIdsDistinct := by
  unfold KvmAbi.resetIdsDistinct; infer_instance

/-- The offsets of struct kvm_regs in 32-bit words, as the arm64 header lays
the structure out. -/
def arm64CoreReg : CoreField → Nat
  | .regs_regs n => 2 * n
  | .regs_pc => 64
  | .regs_pstate => 66
  | .sp_el1 => 68
  | .fp_regs => 84
  | .fp_regs_fpsr => 212

/-- A concrete instance of the header constants, with the values of the arm64
KVM headers; KVM_ARM_VCPU_REC takes the first feature bit after them. -/
def arm64Abi : KvmAbi where
  KVM_REG_ARM64 := 0x6000000000000000
  KVM_REG_ARM_CORE := 0x0010 <<< 16
  KVM_REG_SIZE_U32 := 0x0020000000000000
  KVM_REG_SIZE_U64 := 0x0030000000000000
  KVM_REG_SIZE_U128 := 0x0040000000000000
  KVM_REG_ARM_CORE_REG := arm64CoreReg
  SYS_REG_SCTLR_EL1 := 0x603000000013c080
  KVM_CAP_ARM_EL1_32BIT := 93
  KVM_CAP_ARM_PMU_V3 := 126
  KVM_CAP_ARM_PTRAUTH_ADDRESS := 171
  KVM_CAP_ARM_PTRAUTH_GENERIC := 172
  KVM_CAP_ARM_SVE := 170
  KVM_ARM_VCPU_EL1_32BIT := 1
  KVM_ARM_VCPU_PMU_V3 := 3
  KVM_ARM_VCPU_PTRAUTH_ADDRESS := 5
  KVM_ARM_VCPU_PTRAUTH_GENERIC := 6
  KVM_ARM_VCPU_SVE := 4
  KVM_ARM_VCPU_REC := 7
  VIRTIO_ENDIAN_LE := 1
  VIRTIO_ENDIAN_BE := 2

/-- A host on which every call succeeds and every capability is present. -/
def okHost : Host where
  fails := fun _ _ => false
  kvm__supports_extension := fun _ => true
  kvm__supports_vm_extension := fun _ => true

/-- A host on which every call succeeds and no capability is present. -/
def bareHost : Host where
  fails := fun _ _ => false
  kvm__supports_extension := fun _ => false
  kvm__supports_vm_extension := fun _ => false

/-- A capability query, of either scope. -/
def Op.isQuery : Op → Bool
  | .kvm__supports_extension _ => true
  | .kvm__supports_vm_extension _ => true
  | _ => false

/-- A fresh vCPU: every register reads zero, no call made yet. -/
def World.fresh : World where
  regs := fun _ => 0
  trace := []

/-- The features word after one conditional `|=`. -/
def setFeatureIf (c : Bool) (bit : Nat) (init : VcpuInit) : VcpuInit :=
  if c then setFeature init bit else init

/-- The feature bits the file sets are pairwise different and fit the 32-bit
word features[0]. -/
def KvmAbi.featureBitsOk (abi : KvmAbi) : Prop :=
  [abi.KVM_ARM_VCPU_EL1_32BIT, abi.KVM_ARM_VCPU_PMU_V3, abi.KVM_ARM_VCPU_PTRAUTH_ADDRESS,
    abi.KVM_ARM_VCPU_PTRAUTH_GENERIC, abi.KVM_ARM_VCPU_SVE].Nodup
  ∧ abi.KVM_ARM_VCPU_EL1_32BIT < 32 ∧ abi.KVM_ARM_VCPU_PMU_V3 < 32
  ∧ abi.KVM_ARM_VCPU_PTRAUTH_ADDRESS < 32 ∧ abi.KVM_ARM_VCPU_PTRAUTH_GENERIC < 32
  ∧ abi.KVM_ARM_VCPU_SVE < 32

instance (abi : KvmAbi) : Decidable abi.featureBitsOk := by
  unfold KvmAbi.featureBitsOk; infer_instance

/-- From every state, the calls `m` makes are the first calls `m'` makes, and
both only add calls to the trace. -/
def Run.PrefixOf {α : Type} (m m' : Run α) : Prop :=
  ∀ w, ∃ ops ops', (m w).world.trace = w.trace ++ ops
    ∧ (m' w).world.trace = w.trace ++ ops' ∧ ops <+: ops'

/-- The host on which exactly the call `bad` fails, whenever it is made. -/
def denyHost (bad : Op) : Host where
  fails := fun _ op => decide (op = bad)
  kvm__supports_extension := fun _ => true
  kvm__supports_vm_extension := fun _ => true

/-- A guest for the examples: device tree at 0x8fe00000, kernel at 0x80200000,
an affinity mask, realm not active. -/
def sampleKvm (aarch32 is_realm : Bool) : Kvm :=
  { cfg_arch := ⟨aarch32, false, false, is_realm⟩,
    arch := ⟨false, some 1, 0x8fe00000, 0x80200000⟩ }

/-- A vCPU of the example guest. -/
def sampleVcpu (cpu_id : Nat) (aarch32 is_realm : Bool) : Vcpu :=
  { kvm := sampleKvm aarch32 is_realm, cpu_id := cpu_id }

/-! ## Running the code symbolically -/

section exec
variable {α β : Type}

@[simp]
theorem Outcome.andThen_ret (a : α) (w : World) (k : α → World → Outcome β) :
    (Outcome.ret a w).andThen k = k a w := rfl

@[simp]
theorem Outcome.andThen_died (msg : String) (w : World) (k : α → World → Outcome β) :
    (Outcome.died msg w : Outcome α).andThen k = .died msg w := rfl

@[simp]
theorem Outcome.andThen_ite (c : Prop) [Decidable c] (a b : Outcome α)
    (k : α → World → Outcome β) :
    (if c then a else b).andThen k = if c then a.andThen k else b.andThen k := by
  split <;> rfl

@[simp]
theorem Run.bind_apply (m : Run α) (f : α → Run β) (w : World) :
    (m >>= f) w = (m w).andThen f := rfl

@[simp]
theorem Run.bind_def_apply (m : Run α) (f : α → Run β) (w : World) :
    (Run.bind m f) w = (m w).andThen f := rfl

@[simp]
theorem Run.pure_apply (a : α) (w : World) : (pure a : Run α) w = .ret a w := rfl

@[simp]
theorem Run.ite_apply (c : Prop) [Decidable c] (a b : Run α) (w : World) :
    (if c then a else b) w = if c then a w else b w := by
  split <;> rfl

@[simp]
theorem die_apply (msg : String) (w : World) : (die msg : Run α) w = .died msg w := rfl

end exec

section steps
variable {β : Type}

@[simp]
theorem die_bind {α : Type} (msg : String) (f : α → Run β) :
    (die msg >>= f) = die msg := rfl

theorem set_one_reg_step (host : Host) (id data : Nat) (a b : Run β) (w : World) :
    (ioctl_KVM_SET_ONE_REG host id data w).andThen (fun r => if r < 0 then a else b) =
      if host.fails w.trace (.KVM_SET_ONE_REG id data) then
        a { w with trace := w.trace ++ [.KVM_SET_ONE_REG id data] }
      else
        b { regs := fun i => if i = id then data else w.regs i,
            trace := w.trace ++ [.KVM_SET_ONE_REG id data] } := by
  unfold ioctl_KVM_SET_ONE_REG
  split <;> simp

theorem finalize_step (host : Host) (feature : Nat) (a b : Run β) (w : World) :
    (ioctl_KVM_ARM_VCPU_FINALIZE host feature w).andThen (fun r => if r < 0 then a else b) =
      if host.fails w.trace (.KVM_ARM_VCPU_FINALIZE feature) then
        a { w with trace := w.trace ++ [.KVM_ARM_VCPU_FINALIZE feature] }
      else
        b { w with trace := w.trace ++ [.KVM_ARM_VCPU_FINALIZE feature] } := by
  unfold ioctl_KVM_ARM_VCPU_FINALIZE hostCall
  split <;> simp

theorem setaffinity_step (host : Host) (cpuset : Nat) (a b : Run β) (w : World) :
    (sched_setaffinity host cpuset w).andThen (fun r => if r = -1 then a else b) =
      if host.fails w.trace (.sched_setaffinity cpuset) then
        a { w with trace := w.trace ++ [.sched_setaffinity cpuset] }
      else
        b { w with trace := w.trace ++ [.sched_setaffinity cpuset] } := by
  unfold sched_setaffinity hostCall
  split <;> simp

@[simp]
theorem measurer_apply (pc flags dtb : Nat) (w : World) :
    measurer_reset_vcpu_aarch64 pc flags dtb w =
      .ret () { w with trace := w.trace ++ [.measurer_reset_vcpu_aarch64 pc flags dtb] } := rfl

@[simp]
theorem opsIssued_def {α : Type} (m : Run α) (w : World) :
    opsIssued m w = (m w).world.trace.drop w.trace.length := rfl

@[simp]
theorem Outcome.world_ret {α : Type} (a : α) (w : World) : (Outcome.ret a w).world = w := rfl

@[simp]
theorem Outcome.world_died {α : Type} (msg : String) (w : World) :
    (Outcome.died msg w : Outcome α).world = w := rfl

end steps

/-! ## A failing call cuts a run short -/

section pre
variable {α β : Type}

@[simp]
theorem pure_bind_run (a : α) (f : α → Run β) : (pure a >>= f) = f a := rfl

theorem prefixOf_pure (a : α) : Run.PrefixOf (pure a : Run α) (pure a) :=
  fun w => ⟨[], [], by simp, by simp, List.prefix_refl _⟩

theorem prefixOf_ite (c : Prop) [Decidable c] {a a' b b' : Run α}
    (ha : Run.PrefixOf a a') (hb : Run.PrefixOf b b') :
    Run.PrefixOf (if c then a else b) (if c then a' else b') := by
  split
  · exact ha
  · exact hb

theorem prefixOf_call (host : Host) (op : Op) {b b' : Run β}
    (f g : World → World) (hf : ∀ w, (f w).trace = w.trace ++ [op])
    (hg : ∀ w, (g w).trace = w.trace ++ [op])
    {m m' : Run β} (msg : String)
    (hm : ∀ w, m w = if host.fails w.trace op then .died msg (f w) else b (g w))
    (hm' : ∀ w, m' w = b' (g w))
    (hb : Run.PrefixOf b b') : Run.PrefixOf m m' := by
  intro w
  obtain ⟨ops, ops', h1, h2, h3⟩ := hb (g w)
  rw [hm, hm']
  by_cases h : host.fails w.trace op = true
  · refine ⟨[op], op :: ops', by simp [h, hf], by simp [h2, hg], by simp⟩
  · refine ⟨op :: ops, op :: ops', by simp [h, h1, hg], by simp [h2, hg], by simpa using h3⟩

theorem prefixOf_set {host calm : Host} (hok : calm.neverFails) (id data : Nat) (msg : String)
    {b b' : Run β} (hb : Run.PrefixOf b b') :
    Run.PrefixOf (ioctl_KVM_SET_ONE_REG host id data >>= fun r => if r < 0 then die msg else b)
      (ioctl_KVM_SET_ONE_REG calm id data >>= fun r => if r < 0 then die msg else b') := by
  have hc : ∀ t op, calm.fails t op = false := hok
  refine prefixOf_call host (.KVM_SET_ONE_REG id data)
    (fun w => { w with trace := w.trace ++ [.KVM_SET_ONE_REG id data] })
    (fun w => { regs := fun i => if i = id then data else w.regs i,
                trace := w.trace ++ [.KVM_SET_ONE_REG id data] })
    (fun _ => rfl) (fun _ => rfl) msg ?_ ?_ hb
  · intro w; simp [set_one_reg_step]
  · intro w; simp [set_one_reg_step, hc]

theorem prefixOf_finalize {host calm : Host} (hok : calm.neverFails) (feature : Nat)
    (msg : String) {b b' : Run β} (hb : Run.PrefixOf b b') :
    Run.PrefixOf (ioctl_KVM_ARM_VCPU_FINALIZE host feature >>= fun r => if r < 0 then die msg else b)
      (ioctl_KVM_ARM_VCPU_FINALIZE calm feature >>= fun r => if r < 0 then die msg else b') := by
  have hc : ∀ t op, calm.fails t op = false := hok
  refine prefixOf_call host (.KVM_ARM_VCPU_FINALIZE feature)
    (fun w => { w with trace := w.trace ++ [.KVM_ARM_VCPU_FINALIZE feature] })
    (fun w => { w with trace := w.trace ++ [.KVM_ARM_VCPU_FINALIZE feature] })
    (fun _ => rfl) (fun _ => rfl) msg ?_ ?_ hb
  · intro w; simp [finalize_step]
  · intro w; simp [finalize_step, hc]

theorem prefixOf_setaffinity {host calm : Host} (hok : calm.neverFails) (cpuset : Nat)
    (msg : String) {b b' : Run β} (hb : Run.PrefixOf b b') :
    Run.PrefixOf (sched_setaffinity host cpuset >>= fun r => if r = -1 then die msg else b)
      (sched_setaffinity calm cpuset >>= fun r => if r = -1 then die msg else b') := by
  have hc : ∀ t op, calm.fails t op = false := hok
  refine prefixOf_call host (.sched_setaffinity cpuset)
    (fun w => { w with trace := w.trace ++ [.sched_setaffinity cpuset] })
    (fun w => { w with trace := w.trace ++ [.sched_setaffinity cpuset] })
    (fun _ => rfl) (fun _ => rfl) msg ?_ ?_ hb
  · intro w; simp [setaffinity_step]
  · intro w; simp [setaffinity_step, hc]

theorem prefixOf_measurer (pc flags dtb : Nat) {b b' : Run β} (hb : Run.PrefixOf b b') :
    Run.PrefixOf (measurer_reset_vcpu_aarch64 pc flags dtb >>= fun _ => b)
      (measurer_reset_vcpu_aarch64 pc flags dtb >>= fun _ => b') := by
  intro w
  obtain ⟨ops, ops', h1, h2, h3⟩ :=
    hb { w with trace := w.trace ++ [.measurer_reset_vcpu_aarch64 pc flags dtb] }
  refine ⟨.measurer_reset_vcpu_aarch64 pc flags dtb :: ops,
    .measurer_reset_vcpu_aarch64 pc flags dtb :: ops', by simp [h1], by simp [h2],
    by simpa using h3⟩

theorem opsIssued_initial {m m' : Run α} (h : Run.PrefixOf m m') (w : World) :
    opsIssued m w <+: opsIssued m' w := by
  obtain ⟨ops, ops', h1, h2, h3⟩ := h w
  simpa [h1, h2] using h3

end pre

theorem reset_vcpu_prefixOf (abi : KvmAbi) (rim_measure : Bool) (host calm : Host)
    (vcpu : Vcpu) (hok : calm.neverFails) :
    Run.PrefixOf (kvm_cpu__reset_vcpu abi rim_measure host vcpu)
      (kvm_cpu__reset_vcpu abi rim_measure calm vcpu) := by
  unfold kvm_cpu__reset_vcpu reset_vcpu_aarch32 reset_vcpu_aarch64
  simp only [pure_bind_run, die_bind]
  cases h : vcpu.kvm.arch.vcpu_affinity_cpuset <;>
    simp only [h, pure_bind_run] <;>
    repeat' first
      | exact prefixOf_pure _
      | apply prefixOf_set hok
      | apply prefixOf_finalize hok
      | apply prefixOf_setaffinity hok
      | apply prefixOf_measurer
      | apply prefixOf_ite

/-! ## Feature bits -/

@[simp]
theorem kvm__supports_extension_apply (host : Host) (cap : Nat) (w : World) :
    kvm__supports_extension host cap w =
      .ret (host.kvm__supports_extension cap)
        { w with trace := w.trace ++ [.kvm__supports_extension cap] } := rfl

@[simp]
theorem kvm__supports_vm_extension_apply (host : Host) (cap : Nat) (w : World) :
    kvm__supports_vm_extension host cap w =
      .ret (host.kvm__supports_vm_extension cap)
        { w with trace := w.trace ++ [.kvm__supports_vm_extension cap] } := rfl

set_option maxHeartbeats 1600000 in
/-- What kvm_cpu__select_features returns in the build without RIM_MEASURE; the
state it ends in is the start state with the calls it made added to the trace. -/
theorem select_features_eval (abi : KvmAbi) (host : Host) (kvm : Kvm) (init : VcpuInit)
    (w : World) :
    kvm_cpu__select_features abi false host kvm init w =
      if kvm.cfg_arch.aarch32_guest = true ∧
          host.kvm__supports_extension abi.KVM_CAP_ARM_EL1_32BIT = false then
        .died "32bit guests are not supported\n"
          { w with trace := w.trace ++
              opsIssued (kvm_cpu__select_features abi false host kvm init) w }
      else if kvm.cfg_arch.has_pmuv3 = true ∧
          host.kvm__supports_extension abi.KVM_CAP_ARM_PMU_V3 = false then
        .died "PMUv3 is not supported"
          { w with trace := w.trace ++
              opsIssued (kvm_cpu__select_features abi false host kvm init) w }
      else
        .ret
          (setFeatureIf (!kvm.cfg_arch.disable_sve &&
              host.kvm__supports_vm_extension abi.KVM_CAP_ARM_SVE) abi.KVM_ARM_VCPU_SVE
            (setFeatureIf (host.kvm__supports_extension abi.KVM_CAP_ARM_PTRAUTH_ADDRESS &&
                host.kvm__supports_extension abi.KVM_CAP_ARM_PTRAUTH_GENERIC)
                abi.KVM_ARM_VCPU_PTRAUTH_GENERIC
              (setFeatureIf (host.kvm__supports_extension abi.KVM_CAP_ARM_PTRAUTH_ADDRESS &&
                  host.kvm__supports_extension abi.KVM_CAP_ARM_PTRAUTH_GENERIC)
                  abi.KVM_ARM_VCPU_PTRAUTH_ADDRESS
                (setFeatureIf kvm.cfg_arch.has_pmuv3 abi.KVM_ARM_VCPU_PMU_V3
                  (setFeatureIf kvm.cfg_arch.aarch32_guest abi.KVM_ARM_VCPU_EL1_32BIT init)))))
          { w with trace := w.trace ++
              opsIssued (kvm_cpu__select_features abi false host kvm init) w } := by
  simp only [kvm_cpu__select_features, opsIssued_def, Run.bind_apply, Run.ite_apply,
    Run.pure_apply, die_apply, die_bind, pure_bind_run, kvm__supports_extension_apply,
    kvm__supports_vm_extension_apply, Outcome.andThen_ret, Outcome.andThen_died,
    Outcome.andThen_ite, Bool.not_false, Bool.not_true]
  cases kvm.cfg_arch.aarch32_guest <;> cases kvm.cfg_arch.has_pmuv3 <;>
    cases kvm.cfg_arch.disable_sve <;>
    cases host.kvm__supports_extension abi.KVM_CAP_ARM_EL1_32BIT <;>
    cases host.kvm__supports_extension abi.KVM_CAP_ARM_PMU_V3 <;>
    cases host.kvm__supports_extension abi.KVM_CAP_ARM_PTRAUTH_ADDRESS <;>
    cases host.kvm__supports_extension abi.KVM_CAP_ARM_PTRAUTH_GENERIC <;>
    cases host.kvm__supports_vm_extension abi.KVM_CAP_ARM_SVE <;>
    simp [setFeatureIf]

set_option maxHeartbeats 1600000 in
/-- The calls of kvm_cpu__select_features are capability queries, and it leaves
the register file as it was. -/
theorem select_features_queries (abi : KvmAbi) (host : Host) (kvm : Kvm) (init : VcpuInit)
    (w : World) :
    (kvm_cpu__select_features abi false host kvm init w).world.regs = w.regs
    ∧ ∀ op ∈ opsIssued (kvm_cpu__select_features abi false host kvm init) w,
        op.isQuery = true := by
  simp only [kvm_cpu__select_features, opsIssued_def, Run.bind_apply, Run.ite_apply,
    Run.pure_apply, die_apply, die_bind, pure_bind_run, kvm__supports_extension_apply,
    kvm__supports_vm_extension_apply, Outcome.andThen_ret, Outcome.andThen_died,
    Outcome.andThen_ite, Bool.not_false, Bool.not_true]
  cases kvm.cfg_arch.aarch32_guest <;> cases kvm.cfg_arch.has_pmuv3 <;>
    cases kvm.cfg_arch.disable_sve <;>
    cases host.kvm__supports_extension abi.KVM_CAP_ARM_EL1_32BIT <;>
    cases host.kvm__supports_extension abi.KVM_CAP_ARM_PMU_V3 <;>
    cases host.kvm__supports_extension abi.KVM_CAP_ARM_PTRAUTH_ADDRESS <;>
    cases host.kvm__supports_extension abi.KVM_CAP_ARM_PTRAUTH_GENERIC <;>
    cases host.kvm__supports_vm_extension abi.KVM_CAP_ARM_SVE <;>
    simp [Op.isQuery]

theorem testBit_setFeature (init : VcpuInit) (n b : Nat) (hn : n < 32) :
    (setFeature init n).features0.testBit b =
      (decide (b < 32) && (init.features0.testBit b || decide (b = n))) := by
  have h64 : (1 <<< n) % 2 ^ 64 = 2 ^ n := by
    rw [Nat.one_shiftLeft]
    exact Nat.mod_eq_of_lt (Nat.pow_lt_pow_right (by decide) (by omega))
  simp only [setFeature, h64, Nat.testBit_mod_two_pow, Nat.testBit_or, Nat.testBit_two_pow]
  by_cases h2 : n = b
  · simp [h2]
  · have : ¬ b = n := fun h => h2 h.symm
    simp [h2, this]

theorem setFeature_lt (init : VcpuInit) (n : Nat) : (setFeature init n).features0 < 2 ^ 32 :=
  Nat.mod_lt _ (by decide)

theorem setFeatureIf_lt (c : Bool) (init : VcpuInit) (n : Nat) (h : init.features0 < 2 ^ 32) :
    (setFeatureIf c n init).features0 < 2 ^ 32 := by
  cases c
  · exact h
  · exact setFeature_lt init n

theorem testBit_setFeatureIf (c : Bool) (init : VcpuInit) (n b : Nat) (hn : n < 32)
    (h : init.features0 < 2 ^ 32) :
    (setFeatureIf c n init).features0.testBit b =
      (init.features0.testBit b || (c && decide (b = n))) := by
  cases c
  · simp [setFeatureIf]
  · simp only [setFeatureIf, if_true, testBit_setFeature _ _ _ hn, Bool.true_and]
    by_cases hb : b < 32
    · simp [hb]
    · have h0 : init.features0.testBit b = false :=
        Nat.testBit_lt_two_pow (lt_of_lt_of_le h (Nat.pow_le_pow_right (by decide) (by omega)))
      have hne : ¬ b = n := by omega
      simp [hb, h0, hne]

/-- The bits of features[0] when kvm_cpu__select_features returns, started on an
empty word in the build without RIM_MEASURE. -/
theorem select_features_bits (abi : KvmAbi) (host : Host) (kvm : Kvm) (w : World)
    (hb : abi.featureBitsOk) (init : VcpuInit)
    (hi : (kvm_cpu__select_features abi false host kvm { features0 := 0 } w).value? = some init) :
    init.features0.testBit abi.KVM_ARM_VCPU_EL1_32BIT = kvm.cfg_arch.aarch32_guest
    ∧ init.features0.testBit abi.KVM_ARM_VCPU_PMU_V3 = kvm.cfg_arch.has_pmuv3
    ∧ init.features0.testBit abi.KVM_ARM_VCPU_PTRAUTH_ADDRESS =
        (host.kvm__supports_extension abi.KVM_CAP_ARM_PTRAUTH_ADDRESS &&
          host.kvm__supports_extension abi.KVM_CAP_ARM_PTRAUTH_GENERIC)
    ∧ init.features0.testBit abi.KVM_ARM_VCPU_PTRAUTH_GENERIC =
        (host.kvm__supports_extension abi.KVM_CAP_ARM_PTRAUTH_ADDRESS &&
          host.kvm__supports_extension abi.KVM_CAP_ARM_PTRAUTH_GENERIC)
    ∧ init.features0.testBit abi.KVM_ARM_VCPU_SVE =
        (!kvm.cfg_arch.disable_sve && host.kvm__supports_vm_extension abi.KVM_CAP_ARM_SVE)
    ∧ ∀ b, b ≠ abi.KVM_ARM_VCPU_EL1_32BIT → b ≠ abi.KVM_ARM_VCPU_PMU_V3 →
        b ≠ abi.KVM_ARM_VCPU_PTRAUTH_ADDRESS → b ≠ abi.KVM_ARM_VCPU_PTRAUTH_GENERIC →
        b ≠ abi.KVM_ARM_VCPU_SVE → init.features0.testBit b = false := by
  obtain ⟨hnd, hE, hP, hA, hG, hS⟩ := hb
  simp only [List.nodup_cons, List.mem_cons, not_or, List.mem_singleton, List.not_mem_nil,
    not_false_eq_true, List.nodup_nil, and_true] at hnd
  obtain ⟨⟨d1, d2, d3, d4⟩, ⟨d5, d6, d7⟩, ⟨d8, d9⟩, d10⟩ := hnd
  have e1 := Ne.symm d1; have e2 := Ne.symm d2; have e3 := Ne.symm d3; have e4 := Ne.symm d4
  have e5 := Ne.symm d5; have e6 := Ne.symm d6; have e7 := Ne.symm d7; have e8 := Ne.symm d8
  have e9 := Ne.symm d9; have e10 := Ne.symm d10
  rw [select_features_eval] at hi
  revert hi
  generalize (host.kvm__supports_extension abi.KVM_CAP_ARM_PTRAUTH_ADDRESS &&
    host.kvm__supports_extension abi.KVM_CAP_ARM_PTRAUTH_GENERIC) = pa
  generalize (!kvm.cfg_arch.disable_sve &&
    host.kvm__supports_vm_extension abi.KVM_CAP_ARM_SVE) = sve
  intro hi
  by_cases c1 : kvm.cfg_arch.aarch32_guest = true ∧
      host.kvm__supports_extension abi.KVM_CAP_ARM_EL1_32BIT = false
  · simp [c1, Outcome.value?] at hi
  by_cases c2 : kvm.cfg_arch.has_pmuv3 = true ∧
      host.kvm__supports_extension abi.KVM_CAP_ARM_PMU_V3 = false
  · simp [c1, c2, Outcome.value?] at hi
  simp only [c1, c2, if_false, Outcome.value?, Option.some.injEq] at hi
  subst hi
  have l0 : ({ features0 := 0 } : VcpuInit).features0 < 2 ^ 32 := by decide
  have l1 := setFeatureIf_lt kvm.cfg_arch.aarch32_guest _ abi.KVM_ARM_VCPU_EL1_32BIT l0
  have l2 := setFeatureIf_lt kvm.cfg_arch.has_pmuv3 _ abi.KVM_ARM_VCPU_PMU_V3 l1
  have l3 := setFeatureIf_lt pa _ abi.KVM_ARM_VCPU_PTRAUTH_ADDRESS l2
  have l4 := setFeatureIf_lt pa _ abi.KVM_ARM_VCPU_PTRAUTH_GENERIC l3
  simp only [testBit_setFeatureIf _ _ _ _ hS l4,
    testBit_setFeatureIf _ _ _ _ hG l3, testBit_setFeatureIf _ _ _ _ hA l2,
    testBit_setFeatureIf _ _ _ _ hP l1, testBit_setFeatureIf _ _ _ _ hE l0, Nat.zero_testBit]
  refine ⟨?_, ?_, ?_, ?_, ?_, ?_⟩
  · simp [d1, d2, d3, d4]
  · simp [e1, d5, d6, d7]
  · simp [e2, e5, d8, d9]
  · simp [e3, e6, e8, d10]
  · simp [e4, e7, e9, e10]
  · intro b b1 b2 b3 b4 b5
    simp [b1, b2, b3, b4, b5]

/-- When kvm_cpu__select_features aborts, in the build without RIM_MEASURE. -/
theorem select_features_abort (abi : KvmAbi) (host : Host) (kvm : Kvm) (init : VcpuInit)
    (w : World) :
    (kvm_cpu__select_features abi false host kvm init w).returned = false ↔
      (kvm.cfg_arch.aarch32_guest = true ∧
        host.kvm__supports_extension abi.KVM_CAP_ARM_EL1_32BIT = false) ∨
      (kvm.cfg_arch.has_pmuv3 = true ∧
        host.kvm__supports_extension abi.KVM_CAP_ARM_PMU_V3 = false) := by
  rw [select_features_eval]
  by_cases c1 : kvm.cfg_arch.aarch32_guest = true ∧
      host.kvm__supports_extension abi.KVM_CAP_ARM_EL1_32BIT = false
  · simp [c1, Outcome.returned]
  by_cases c2 : kvm.cfg_arch.has_pmuv3 = true ∧
      host.kvm__supports_extension abi.KVM_CAP_ARM_PMU_V3 = false
  · simp [c1, c2, Outcome.returned]
  simp only [c1, c2, if_false, Outcome.returned, or_self]
  simp

/-! ## Reading register writes off a trace -/

theorem resetIds_ne (abi : KvmAbi) (hd : abi.resetIdsDistinct) :
    ∀ a ∈ [CoreField.regs_pstate, .regs_regs 0, .regs_regs 1, .regs_regs 2, .regs_regs 3,
      .regs_pc], ∀ b ∈ [CoreField.regs_pstate, .regs_regs 0, .regs_regs 1, .regs_regs 2,
      .regs_regs 3, .regs_pc], a ≠ b → ARM64_CORE_REG abi a ≠ ARM64_CORE_REG abi b := by
  intro a ha b hb hab h
  exact hab (List.inj_on_of_nodup_map hd ha hb h)

theorem regWrites_append (l₁ l₂ : List Op) :
    regWrites (l₁ ++ l₂) = regWrites l₁ ++ regWrites l₂ := by
  induction l₁ with
  | nil => rfl
  | cons op l ih => cases op <;> simp [regWrites, ih]

theorem mem_regWrites_of_initial {l₁ l₂ : List Op} (h : l₁ <+: l₂) {p : Nat × Nat}
    (hp : p ∈ regWrites l₁) : p ∈ regWrites l₂ := by
  obtain ⟨t, rfl⟩ := h
  rw [regWrites_append]
  exact List.mem_append_left _ hp

theorem okHost_neverFails : okHost.neverFails := fun _ _ => rfl

theorem last_of_initial_of_mem {l L : List Op} {x : Op} (h : l <+: L) (hx : x ∈ l)
    (hlast : L.getLast? = some x) (hn : x ∉ L.dropLast) :
    ∃ pre, l = pre ++ [x] ∧ x ∉ pre := by
  have hL : L.dropLast ++ [x] = L := List.dropLast_append_getLast? x (by simp [hlast])
  rw [← hL] at h
  rcases List.prefix_concat_iff.1 h with h1 | h1
  · exact ⟨L.dropLast, by simpa using h1, hn⟩
  · exact absurd (h1.subset hx) hn

/-! ## Register reads -/

theorem get_step {β : Type} (host : Host) (id : Nat) (f : Int × Nat → Run β) (w : World) :
    (ioctl_KVM_GET_ONE_REG host id w).andThen f =
      if host.fails w.trace (.KVM_GET_ONE_REG id) then
        f (-1, 0) { w with trace := w.trace ++ [.KVM_GET_ONE_REG id] }
      else
        f (0, w.regs id) { w with trace := w.trace ++ [.KVM_GET_ONE_REG id] } := by
  unfold ioctl_KVM_GET_ONE_REG
  split <;> simp

theorem get_endianness_eval (abi : KvmAbi) (host : Host) (w : World) :
    kvm_cpu__get_endianness abi host w =
      let pstate := ARM64_CORE_REG abi .regs_pstate
      let psr := w.regs pstate
      let sctlr := w.regs abi.SYS_REG_SCTLR_EL1
      if host.fails w.trace (.KVM_GET_ONE_REG pstate) then
        .died "KVM_GET_ONE_REG failed (spsr[EL1])"
          { w with trace := w.trace ++ [.KVM_GET_ONE_REG pstate] }
      else if psr &&& PSR_MODE32_BIT ≠ 0 then
        .ret (if psr &&& COMPAT_PSR_E_BIT ≠ 0 then abi.VIRTIO_ENDIAN_BE
          else abi.VIRTIO_ENDIAN_LE) { w with trace := w.trace ++ [.KVM_GET_ONE_REG pstate] }
      else if host.fails (w.trace ++ [.KVM_GET_ONE_REG pstate])
          (.KVM_GET_ONE_REG abi.SYS_REG_SCTLR_EL1) then
        .died "KVM_GET_ONE_REG failed (SCTLR_EL1)"
          { w with trace := w.trace ++
              [.KVM_GET_ONE_REG pstate, .KVM_GET_ONE_REG abi.SYS_REG_SCTLR_EL1] }
      else
        .ret (if sctlr &&& (if psr &&& PSR_MODE_MASK = PSR_MODE_EL0t then SCTLR_EL1_E0E_MASK
            else SCTLR_EL1_EE_MASK) ≠ 0 then abi.VIRTIO_ENDIAN_BE else abi.VIRTIO_ENDIAN_LE)
          { w with trace := w.trace ++
              [.KVM_GET_ONE_REG pstate, .KVM_GET_ONE_REG abi.SYS_REG_SCTLR_EL1] } := by
  simp only [kvm_cpu__get_endianness, Run.bind_apply, get_step, Run.ite_apply, Run.pure_apply,
    die_apply, List.append_assoc, List.singleton_append, Int.reduceNeg, Int.reduceLT, if_true,
    lt_self_iff_false, if_false]
  split_ifs <;> simp_all

/-! ## Register addressing -/

/-- C1: for every offset o, `__core_reg_id o` is KVM_REG_ARM64 | KVM_REG_ARM_CORE | o |
size(o), where size(o) is the 64-bit class below the start of fp_regs, the 128-bit
class from there up to (not including) fp_regs.fpsr, and the 32-bit class from
fp_regs.fpsr on; the offsets fp_regs-1, fp_regs, fpsr-1 and fpsr fall in the
64-bit, 128-bit, 128-bit and 32-bit class, and every offset is in exactly one of
the three ranges. The two facts of the header layout used are that fp_regs does
not start the structure and lies before fp_regs.fpsr. -/
theorem core_reg_id_size_class (abi : KvmAbi) (o : Nat)
    (hpos : 0 < abi.KVM_REG_ARM_CORE_REG .fp_regs)
    (hlt : abi.KVM_REG_ARM_CORE_REG .fp_regs < abi.KVM_REG_ARM_CORE_REG .fp_regs_fpsr) :
    let fp := abi.KVM_REG_ARM_CORE_REG .fp_regs
    let fpsr := abi.KVM_REG_ARM_CORE_REG .fp_regs_fpsr
    let base := fun x => abi.KVM_REG_ARM64 ||| abi.KVM_REG_ARM_CORE ||| x
    (o < fp → __core_reg_id abi o = base o ||| abi.KVM_REG_SIZE_U64)
    ∧ (fp ≤ o → o < fpsr → __core_reg_id abi o = base o ||| abi.KVM_REG_SIZE_U128)
    ∧ (fpsr ≤ o → __core_reg_id abi o = base o ||| abi.KVM_REG_SIZE_U32)
    ∧ __core_reg_id abi (fp - 1) = base (fp - 1) ||| abi.KVM_REG_SIZE_U64
    ∧ __core_reg_id abi fp = base fp ||| abi.KVM_REG_SIZE_U128
    ∧ __core_reg_id abi (fpsr - 1) = base (fpsr - 1) ||| abi.KVM_REG_SIZE_U128
    ∧ __core_reg_id abi fpsr = base fpsr ||| abi.KVM_REG_SIZE_U32
    ∧ ((o < fp ∧ ¬(fp ≤ o ∧ o < fpsr) ∧ ¬fpsr ≤ o)
        ∨ (¬o < fp ∧ (fp ≤ o ∧ o < fpsr) ∧ ¬fpsr ≤ o)
        ∨ (¬o < fp ∧ ¬(fp ≤ o ∧ o < fpsr) ∧ fpsr ≤ o)) := by
  intro fp fpsr base
  have key : ∀ x, __core_reg_id abi x =
      if x < fp then base x ||| abi.KVM_REG_SIZE_U64
      else if x < fpsr then base x ||| abi.KVM_REG_SIZE_U128
      else base x ||| abi.KVM_REG_SIZE_U32 := fun x => rfl
  refine ⟨?_, ?_, ?_, ?_, ?_, ?_, ?_, ?_⟩
  · intro h; rw [key, if_pos h]
  · intro h1 h2; rw [key, if_neg (by omega), if_pos h2]
  · intro h; rw [key, if_neg (by omega), if_neg (by omega)]
  · rw [key, if_pos (by omega)]
  · rw [key, if_neg (by omega), if_pos (by omega)]
  · rw [key, if_neg (by omega), if_pos (by omega)]
  · rw [key, if_neg (by omega), if_neg (by omega)]
  · omega

/-- With the arm64 header values (fp_regs at word 84, fp_regs.fpsr at word 212) the
four boundary offsets 83, 84, 211 and 212 get the identifiers of the 64-bit,
128-bit, 128-bit and 32-bit class. -/
theorem core_reg_id_size_class_witness :
    __core_reg_id arm64Abi 83 = 0x6030000000100053
    ∧ __core_reg_id arm64Abi 84 = 0x6040000000100054
    ∧ __core_reg_id arm64Abi 211 = 0x60400000001000d3
    ∧ __core_reg_id arm64Abi 212 = 0x60200000001000d4 :=
  have h := core_reg_id_size_class arm64Abi 0 (by decide) (by decide)
  ⟨h.2.2.2.1, h.2.2.2.2.1, h.2.2.2.2.2.1, h.2.2.2.2.2.2.1⟩

/-! ## Feature negotiation -/

/-- C2: in the build without RIM_MEASURE, started on an empty feature word,
kvm_cpu__select_features aborts exactly when a 32-bit guest is requested without
KVM_CAP_ARM_EL1_32BIT or PMUv3 is requested without KVM_CAP_ARM_PMU_V3; otherwise
it returns, and features[0] has the EL1_32BIT bit iff aarch32_guest, the PMU_V3
bit iff has_pmuv3, both pointer-authentication bits iff both pointer-authentication
capabilities are present, the SVE bit iff disable_sve is clear and the VM-scoped
KVM_CAP_ARM_SVE is present, and no other bit. Its only calls are capability
queries: it makes no call on the vCPU and leaves the register file as it was. -/
theorem select_features_policy (abi : KvmAbi) (host : Host) (kvm : Kvm) (w : World)
    (hb : abi.featureBitsOk) :
    let out := kvm_cpu__select_features abi false host kvm { features0 := 0 } w
    let ptrauth := host.kvm__supports_extension abi.KVM_CAP_ARM_PTRAUTH_ADDRESS &&
      host.kvm__supports_extension abi.KVM_CAP_ARM_PTRAUTH_GENERIC
    let sve := !kvm.cfg_arch.disable_sve && host.kvm__supports_vm_extension abi.KVM_CAP_ARM_SVE
    (out.returned = false ↔
      (kvm.cfg_arch.aarch32_guest = true ∧
        host.kvm__supports_extension abi.KVM_CAP_ARM_EL1_32BIT = false) ∨
      (kvm.cfg_arch.has_pmuv3 = true ∧
        host.kvm__supports_extension abi.KVM_CAP_ARM_PMU_V3 = false))
    ∧ out.world.regs = w.regs
    ∧ (∀ op ∈ opsIssued (kvm_cpu__select_features abi false host kvm { features0 := 0 }) w,
        op.isQuery = true)
    ∧ (out.returned = true → ∃ init, out.value? = some init)
    ∧ ∀ init, out.value? = some init →
        init.features0.testBit abi.KVM_ARM_VCPU_EL1_32BIT = kvm.cfg_arch.aarch32_guest
        ∧ init.features0.testBit abi.KVM_ARM_VCPU_PMU_V3 = kvm.cfg_arch.has_pmuv3
        ∧ init.features0.testBit abi.KVM_ARM_VCPU_PTRAUTH_ADDRESS = ptrauth
        ∧ init.features0.testBit abi.KVM_ARM_VCPU_PTRAUTH_GENERIC = ptrauth
        ∧ init.features0.testBit abi.KVM_ARM_VCPU_SVE = sve
        ∧ ∀ b, b ≠ abi.KVM_ARM_VCPU_EL1_32BIT → b ≠ abi.KVM_ARM_VCPU_PMU_V3 →
            b ≠ abi.KVM_ARM_VCPU_PTRAUTH_ADDRESS → b ≠ abi.KVM_ARM_VCPU_PTRAUTH_GENERIC →
            b ≠ abi.KVM_ARM_VCPU_SVE → init.features0.testBit b = false := by
  have h1 := select_features_abort abi host kvm { features0 := 0 } w
  have h2 := select_features_queries abi host kvm { features0 := 0 } w
  refine ⟨h1, h2.1, h2.2, ?_, fun init hi => select_features_bits abi host kvm w hb init hi⟩
  intro hr
  cases ho : kvm_cpu__select_features abi false host kvm { features0 := 0 } w with
  | ret a w1 => exact ⟨a, rfl⟩
  | died msg w1 => simp [ho, Outcome.returned] at hr

/-- The arm64 feature bits (1, 3, 5, 6, 4) are distinct and below 32; on a host
with every capability a 64-bit guest without PMU gets the bits 4, 5 and 6 and
not the bits 1 and 3. -/
theorem select_features_policy_witness :
    arm64Abi.featureBitsOk ∧
    ∀ init, (kvm_cpu__select_features arm64Abi false okHost
        { cfg_arch := ⟨false, false, false, false⟩, arch := ⟨false, none, 0, 0⟩ }
        { features0 := 0 } World.fresh).value? = some init →
      init.features0.testBit 1 = false ∧ init.features0.testBit 3 = false
      ∧ init.features0.testBit 5 = true ∧ init.features0.testBit 6 = true
      ∧ init.features0.testBit 4 = true :=
  ⟨by decide, fun init hi =>
    have h := (select_features_policy arm64Abi okHost
      { cfg_arch := ⟨false, false, false, false⟩, arch := ⟨false, none, 0, 0⟩ } World.fresh
      (by decide)).2.2.2.2 init hi
    ⟨h.1, h.2.1, h.2.2.1, h.2.2.2.1, h.2.2.2.2.1⟩⟩

/-! ## Reset -/

/-- C5: when realm_is_active is set, kvm_cpu__reset_vcpu returns at once in the
state it was started in, for every vCPU index, guest mode, realm flag, affinity
setting and build: no call is made (no register write, no finalize, no affinity
binding, no report to the measurer) and the register file is unchanged. -/
theorem reset_vcpu_realm_active (abi : KvmAbi) (rim_measure : Bool) (host : Host)
    (vcpu : Vcpu) (w : World) (h : vcpu.kvm.arch.realm_is_active = true) :
    kvm_cpu__reset_vcpu abi rim_measure host vcpu w = .ret () w
    ∧ opsIssued (kvm_cpu__reset_vcpu abi rim_measure host vcpu) w = [] := by
  have e : kvm_cpu__reset_vcpu abi rim_measure host vcpu w = .ret () w := by
    simp [kvm_cpu__reset_vcpu, h]
  exact ⟨e, by simp [opsIssued, e, Outcome.world]⟩

/-- An active realm on a 32-bit primary vCPU with an affinity mask: nothing happens. -/
theorem reset_vcpu_realm_active_witness :
    opsIssued (kvm_cpu__reset_vcpu arm64Abi false okHost
      { kvm := { cfg_arch := ⟨true, false, false, true⟩,
                 arch := ⟨true, some 1, 0x8fe00000, 0x80200000⟩ },
        cpu_id := 0 }) World.fresh = [] :=
  (reset_vcpu_realm_active arm64Abi false okHost
    { kvm := { cfg_arch := ⟨true, false, false, true⟩,
               arch := ⟨true, some 1, 0x8fe00000, 0x80200000⟩ },
      cpu_id := 0 } World.fresh rfl).2

/-- C7: for a 32-bit guest whose realm is not active, when every call succeeds,
kvm_cpu__reset_vcpu (in either build) returns and writes pstate =
COMPAT_PSR_I_BIT | COMPAT_PSR_F_BIT | COMPAT_PSR_MODE_SVC = 0xd3 for every vCPU;
for cpu_id != 0 that is the only register written; for cpu_id = 0 the writes are,
in order, pstate, r0 = 0, r1 = 0xffffffffffffffff, r2 = dtb_guest_start and
pc = kern_guest_start, the register file ends with these values, and every other
register keeps its value. -/
theorem reset_aarch32_registers (abi : KvmAbi) (rim_measure : Bool) (host : Host)
    (vcpu : Vcpu) (w : World)
    (h32 : vcpu.kvm.cfg_arch.aarch32_guest = true)
    (hact : vcpu.kvm.arch.realm_is_active = false)
    (hok : host.neverFails) (hd : abi.resetIdsDistinct) :
    let out := kvm_cpu__reset_vcpu abi rim_measure host vcpu w
    let ops := opsIssued (kvm_cpu__reset_vcpu abi rim_measure host vcpu) w
    let pstate := ARM64_CORE_REG abi .regs_pstate
    let r0 := ARM64_CORE_REG abi (.regs_regs 0)
    let r1 := ARM64_CORE_REG abi (.regs_regs 1)
    let r2 := ARM64_CORE_REG abi (.regs_regs 2)
    let pc := ARM64_CORE_REG abi .regs_pc
    COMPAT_PSR_I_BIT ||| COMPAT_PSR_F_BIT ||| COMPAT_PSR_MODE_SVC = 0xd3
    ∧ out.returned = true
    ∧ (vcpu.cpu_id ≠ 0 → regWrites ops = [(pstate, 0xd3)])
    ∧ (vcpu.cpu_id = 0 → regWrites ops =
        [(pstate, 0xd3), (r0, 0), (r1, 0xffffffffffffffff),
         (r2, vcpu.kvm.arch.dtb_guest_start), (pc, vcpu.kvm.arch.kern_guest_start)])
    ∧ out.world.regs pstate = 0xd3
    ∧ (vcpu.cpu_id = 0 → out.world.regs r0 = 0 ∧ out.world.regs r1 = 0xffffffffffffffff
        ∧ out.world.regs r2 = vcpu.kvm.arch.dtb_guest_start
        ∧ out.world.regs pc = vcpu.kvm.arch.kern_guest_start)
    ∧ (∀ id, id ≠ pstate → (vcpu.cpu_id = 0 → id ≠ r0 ∧ id ≠ r1 ∧ id ≠ r2 ∧ id ≠ pc) →
        out.world.regs id = w.regs id) := by
  have hf : ∀ t op, host.fails t op = false := hok
  have ne := resetIds_ne abi hd
  have n1 := ne .regs_pstate (by simp) (.regs_regs 0) (by simp) (by simp)
  have n2 := ne .regs_pstate (by simp) (.regs_regs 1) (by simp) (by simp)
  have n3 := ne .regs_pstate (by simp) (.regs_regs 2) (by simp) (by simp)
  have n4 := ne .regs_pstate (by simp) .regs_pc (by simp) (by simp)
  have n5 := ne (.regs_regs 0) (by simp) (.regs_regs 1) (by simp) (by simp)
  have n6 := ne (.regs_regs 0) (by simp) (.regs_regs 2) (by simp) (by simp)
  have n7 := ne (.regs_regs 0) (by simp) .regs_pc (by simp) (by simp)
  have n8 := ne (.regs_regs 1) (by simp) (.regs_regs 2) (by simp) (by simp)
  have n9 := ne (.regs_regs 1) (by simp) .regs_pc (by simp) (by simp)
  have n10 := ne (.regs_regs 2) (by simp) .regs_pc (by simp) (by simp)
  have hv : COMPAT_PSR_I_BIT ||| COMPAT_PSR_F_BIT ||| COMPAT_PSR_MODE_SVC = 0xd3 := by decide
  dsimp only
  refine ⟨hv, ?_⟩
  clear ne
  by_cases hc : vcpu.cpu_id = 0 <;> cases ha : vcpu.kvm.arch.vcpu_affinity_cpuset <;>
    simp [kvm_cpu__reset_vcpu, reset_vcpu_aarch32, set_one_reg_step, setaffinity_step,
      h32, hact, hc, ha, hf, hv, Outcome.returned, regWrites, n1, n2, n3, n4, n5, n6, n7, n8,
      n9, n10] <;>
    intros <;> simp_all

/-- On the primary vCPU of the 32-bit example guest the reset leaves pstate = 0xd3,
r0 = 0, r1 = all-ones, r2 = 0x8fe00000 and pc = 0x80200000. -/
theorem reset_aarch32_registers_witness :
    (kvm_cpu__reset_vcpu arm64Abi false okHost (sampleVcpu 0 true false)
        World.fresh).world.regs 0x6030000000100042 = 0xd3
    ∧ (kvm_cpu__reset_vcpu arm64Abi false okHost (sampleVcpu 0 true false)
        World.fresh).world.regs 0x6030000000100000 = 0
    ∧ (kvm_cpu__reset_vcpu arm64Abi false okHost (sampleVcpu 0 true false)
        World.fresh).world.regs 0x6030000000100002 = 0xffffffffffffffff
    ∧ (kvm_cpu__reset_vcpu arm64Abi false okHost (sampleVcpu 0 true false)
        World.fresh).world.regs 0x6030000000100004 = 0x8fe00000
    ∧ (kvm_cpu__reset_vcpu arm64Abi false okHost (sampleVcpu 0 true false)
        World.fresh).world.regs 0x6030000000100040 = 0x80200000 :=
  have h := reset_aarch32_registers arm64Abi false okHost (sampleVcpu 0 true false) World.fresh
    rfl rfl okHost_neverFails (by decide)
  ⟨h.2.2.2.2.1, h.2.2.2.2.2.1 rfl⟩

/-- C3 (amended): in the build without RIM_MEASURE, for the primary vCPU
(cpu_id = 0) of a 64-bit, non-realm guest whose realm is not active, when every
call succeeds, kvm_cpu__reset_vcpu returns with pc = kern_guest_start,
x0 = dtb_guest_start, x1 = x2 = x3 = 0 and pstate = PSR_D_BIT | PSR_A_BIT |
PSR_I_BIT | PSR_F_BIT | PSR_MODE_EL1h = 0x3c5; the register writes are exactly
these six, each with the identifier `__core_reg_id` gives for the register. -/
theorem reset_primary_aarch64_registers (abi : KvmAbi) (host : Host) (vcpu : Vcpu)
    (w : World)
    (hcpu : vcpu.cpu_id = 0)
    (h64 : vcpu.kvm.cfg_arch.aarch32_guest = false)
    (hrealm : vcpu.kvm.cfg_arch.is_realm = false)
    (hact : vcpu.kvm.arch.realm_is_active = false)
    (hok : host.neverFails) (hd : abi.resetIdsDistinct) :
    let out := kvm_cpu__reset_vcpu abi false host vcpu w
    let ops := opsIssued (kvm_cpu__reset_vcpu abi false host vcpu) w
    let pstate := __core_reg_id abi (abi.KVM_REG_ARM_CORE_REG .regs_pstate)
    let x0 := __core_reg_id abi (abi.KVM_REG_ARM_CORE_REG (.regs_regs 0))
    let x1 := __core_reg_id abi (abi.KVM_REG_ARM_CORE_REG (.regs_regs 1))
    let x2 := __core_reg_id abi (abi.KVM_REG_ARM_CORE_REG (.regs_regs 2))
    let x3 := __core_reg_id abi (abi.KVM_REG_ARM_CORE_REG (.regs_regs 3))
    let pc := __core_reg_id abi (abi.KVM_REG_ARM_CORE_REG .regs_pc)
    PSR_D_BIT ||| PSR_A_BIT ||| PSR_I_BIT ||| PSR_F_BIT ||| PSR_MODE_EL1h = 0x3c5
    ∧ out.returned = true
    ∧ regWrites ops = [(pstate, 0x3c5), (x1, 0), (x2, 0), (x3, 0),
        (x0, vcpu.kvm.arch.dtb_guest_start), (pc, vcpu.kvm.arch.kern_guest_start)]
    ∧ out.world.regs pc = vcpu.kvm.arch.kern_guest_start
    ∧ out.world.regs x0 = vcpu.kvm.arch.dtb_guest_start
    ∧ out.world.regs x1 = 0 ∧ out.world.regs x2 = 0 ∧ out.world.regs x3 = 0
    ∧ out.world.regs pstate = 0x3c5 := by
  have hf : ∀ t op, host.fails t op = false := hok
  have ne := resetIds_ne abi hd
  have n1 := ne .regs_pstate (by simp) (.regs_regs 0) (by simp) (by simp)
  have n2 := ne .regs_pstate (by simp) (.regs_regs 1) (by simp) (by simp)
  have n3 := ne .regs_pstate (by simp) (.regs_regs 2) (by simp) (by simp)
  have n4 := ne .regs_pstate (by simp) (.regs_regs 3) (by simp) (by simp)
  have n5 := ne .regs_pstate (by simp) .regs_pc (by simp) (by simp)
  have n6 := ne (.regs_regs 0) (by simp) .regs_pc (by simp) (by simp)
  have n7 := ne (.regs_regs 1) (by simp) (.regs_regs 0) (by simp) (by simp)
  have n8 := ne (.regs_regs 1) (by simp) (.regs_regs 2) (by simp) (by simp)
  have n9 := ne (.regs_regs 1) (by simp) (.regs_regs 3) (by simp) (by simp)
  have n10 := ne (.regs_regs 1) (by simp) .regs_pc (by simp) (by simp)
  have n11 := ne (.regs_regs 2) (by simp) (.regs_regs 0) (by simp) (by simp)
  have n12 := ne (.regs_regs 2) (by simp) (.regs_regs 3) (by simp) (by simp)
  have n13 := ne (.regs_regs 2) (by simp) .regs_pc (by simp) (by simp)
  have n14 := ne (.regs_regs 3) (by simp) (.regs_regs 0) (by simp) (by simp)
  have n15 := ne (.regs_regs 3) (by simp) .regs_pc (by simp) (by simp)
  have hv : PSR_D_BIT ||| PSR_A_BIT ||| PSR_I_BIT ||| PSR_F_BIT ||| PSR_MODE_EL1h = 0x3c5 := by
    decide
  clear ne
  simp only [ARM64_CORE_REG] at n1 n2 n3 n4 n5 n6 n7 n8 n9 n10 n11 n12 n13 n14 n15
  dsimp only
  refine ⟨hv, ?_⟩
  cases ha : vcpu.kvm.arch.vcpu_affinity_cpuset <;>
    simp [kvm_cpu__reset_vcpu, reset_vcpu_aarch64, set_one_reg_step, setaffinity_step,
      finalize_step, ARM64_CORE_REG,
      h64, hrealm, hact, hcpu, ha, hf, hv, Outcome.returned, regWrites, n1, n2, n3, n4, n5, n6,
      n7, n8, n9, n10, n11, n12, n13, n14, n15, Ne.symm n1, Ne.symm n6, Ne.symm n7, Ne.symm n11,
      Ne.symm n14, Ne.symm n8, Ne.symm n9, Ne.symm n12, Ne.symm n2, Ne.symm n3, Ne.symm n4]

/-- On the primary vCPU of the 64-bit example guest the reset leaves
pc = 0x80200000, x0 = 0x8fe00000 and pstate = 0x3c5. -/
theorem reset_primary_aarch64_registers_witness :
    (kvm_cpu__reset_vcpu arm64Abi false okHost (sampleVcpu 0 false false)
        World.fresh).world.regs 0x6030000000100040 = 0x80200000
    ∧ (kvm_cpu__reset_vcpu arm64Abi false okHost (sampleVcpu 0 false false)
        World.fresh).world.regs 0x6030000000100000 = 0x8fe00000
    ∧ (kvm_cpu__reset_vcpu arm64Abi false okHost (sampleVcpu 0 false false)
        World.fresh).world.regs 0x6030000000100042 = 0x3c5 :=
  have h := reset_primary_aarch64_registers arm64Abi okHost (sampleVcpu 0 false false)
    World.fresh rfl rfl rfl rfl okHost_neverFails (by decide)
  ⟨h.2.2.2.1, h.2.2.2.2.1, h.2.2.2.2.2.2.2.2⟩

/-- In the build with RIM_MEASURE the reset of the primary vCPU of the 64-bit
example guest returns without a register write, and pc is not the kernel entry
address. -/
theorem reset_primary_aarch64_measured_build :
    regWrites (opsIssued (kvm_cpu__reset_vcpu arm64Abi true okHost (sampleVcpu 0 false false))
      World.fresh) = []
    ∧ (kvm_cpu__reset_vcpu arm64Abi true okHost (sampleVcpu 0 false false) World.fresh).returned
        = true
    ∧ (kvm_cpu__reset_vcpu arm64Abi true okHost (sampleVcpu 0 false false)
        World.fresh).world.regs (ARM64_CORE_REG arm64Abi .regs_pc) ≠
        (sampleVcpu 0 false false).kvm.arch.kern_guest_start := by
  decide

/-- C4 (amended): for every vCPU with cpu_id != 0, every configuration, both guest
modes and both builds, whatever calls fail, the calls of kvm_cpu__reset_vcpu
contain no write to regs.pc and none to regs.regs[0]; for a 32-bit guest they
contain no write to regs.regs[2] either, and for a 64-bit guest every write to
regs.regs[2] writes the value 0. -/
theorem reset_secondary_boot_registers (abi : KvmAbi) (rim_measure : Bool) (host : Host)
    (vcpu : Vcpu) (w : World) (hcpu : vcpu.cpu_id ≠ 0) (hd : abi.resetIdsDistinct) :
    ∀ p ∈ regWrites (opsIssued (kvm_cpu__reset_vcpu abi rim_measure host vcpu) w),
      p.1 ≠ ARM64_CORE_REG abi .regs_pc ∧ p.1 ≠ ARM64_CORE_REG abi (.regs_regs 0)
      ∧ (vcpu.kvm.cfg_arch.aarch32_guest = true → p.1 ≠ ARM64_CORE_REG abi (.regs_regs 2))
      ∧ (p.1 = ARM64_CORE_REG abi (.regs_regs 2) → p.2 = 0) := by
  intro p hp
  have hp := mem_regWrites_of_initial
    (opsIssued_initial
      (reset_vcpu_prefixOf abi rim_measure host okHost vcpu okHost_neverFails) w) hp
  have ne := resetIds_ne abi hd
  have n1 := ne .regs_pstate (by simp) .regs_pc (by simp) (by simp)
  have n2 := ne .regs_pstate (by simp) (.regs_regs 0) (by simp) (by simp)
  have n3 := ne .regs_pstate (by simp) (.regs_regs 2) (by simp) (by simp)
  have n4 := ne (.regs_regs 1) (by simp) .regs_pc (by simp) (by simp)
  have n5 := ne (.regs_regs 1) (by simp) (.regs_regs 0) (by simp) (by simp)
  have n6 := ne (.regs_regs 1) (by simp) (.regs_regs 2) (by simp) (by simp)
  have n7 := ne (.regs_regs 2) (by simp) .regs_pc (by simp) (by simp)
  have n8 := ne (.regs_regs 2) (by simp) (.regs_regs 0) (by simp) (by simp)
  have n9 := ne (.regs_regs 3) (by simp) .regs_pc (by simp) (by simp)
  have n10 := ne (.regs_regs 3) (by simp) (.regs_regs 0) (by simp) (by simp)
  have n11 := ne (.regs_regs 3) (by simp) (.regs_regs 2) (by simp) (by simp)
  clear ne
  revert hp
  cases rim_measure <;> cases h32 : vcpu.kvm.cfg_arch.aarch32_guest <;>
    cases hr : vcpu.kvm.cfg_arch.is_realm <;> cases ha : vcpu.kvm.arch.realm_is_active <;>
    cases hf : vcpu.kvm.arch.vcpu_affinity_cpuset <;>
    simp [kvm_cpu__reset_vcpu, reset_vcpu_aarch32, reset_vcpu_aarch64,
      set_one_reg_step, finalize_step, setaffinity_step, h32, hr, ha, hf, hcpu, regWrites,
      okHost_neverFails _ _] <;>
    intro h <;> rcases h with rfl | rfl | rfl | rfl <;>
    simp [n1, n2, n3, n4, n5, n6, n7, n8, n9, n10, n11]

/-- On a secondary vCPU of the 64-bit example guest the write of 0 to x2 is
neither a write to pc nor one to x0. -/
theorem reset_secondary_boot_registers_witness :
    (ARM64_CORE_REG arm64Abi (.regs_regs 2), 0) ∈
      regWrites (opsIssued (kvm_cpu__reset_vcpu arm64Abi false okHost (sampleVcpu 1 false false))
        World.fresh)
    ∧ ARM64_CORE_REG arm64Abi (.regs_regs 2) ≠ ARM64_CORE_REG arm64Abi .regs_pc
    ∧ ARM64_CORE_REG arm64Abi (.regs_regs 2) ≠ ARM64_CORE_REG arm64Abi (.regs_regs 0) :=
  have hm : (ARM64_CORE_REG arm64Abi (.regs_regs 2), 0) ∈
      regWrites (opsIssued (kvm_cpu__reset_vcpu arm64Abi false okHost (sampleVcpu 1 false false))
        World.fresh) := by decide
  have h := reset_secondary_boot_registers arm64Abi false okHost (sampleVcpu 1 false false)
    World.fresh (by decide) (by decide) _ hm
  ⟨hm, h.1, h.2.1⟩

/-- In the build without RIM_MEASURE the reset of a secondary vCPU of the 64-bit
example guest writes regs.regs[2]. -/
theorem reset_secondary_aarch64_writes_x2 :
    (sampleVcpu 1 false false).cpu_id ≠ 0 ∧
    (ARM64_CORE_REG arm64Abi (.regs_regs 2), 0) ∈
      regWrites (opsIssued (kvm_cpu__reset_vcpu arm64Abi false okHost (sampleVcpu 1 false false))
        World.fresh) := by
  decide

/-- C8 (amended): in the build without RIM_MEASURE, when the realm is not yet
active, the call KVM_ARM_VCPU_FINALIZE(KVM_ARM_VCPU_REC) is issued by
kvm_cpu__reset_vcpu only for a 64-bit guest configured as a realm (never for a
non-realm guest, never for a 32-bit guest); whatever calls fail, when it is issued
it is the last call of the reset and does not occur before, so it is issued once
and after every register write; and when no call fails, for a 64-bit guest it is
issued if and only if cfg.arch.is_realm is set. -/
theorem reset_finalize_rec (abi : KvmAbi) (host : Host) (vcpu : Vcpu) (w : World)
    (hact : vcpu.kvm.arch.realm_is_active = false) :
    let ops := opsIssued (kvm_cpu__reset_vcpu abi false host vcpu) w
    let fin := Op.KVM_ARM_VCPU_FINALIZE abi.KVM_ARM_VCPU_REC
    (fin ∈ ops → vcpu.kvm.cfg_arch.is_realm = true ∧ vcpu.kvm.cfg_arch.aarch32_guest = false)
    ∧ (fin ∈ ops → ∃ pre, ops = pre ++ [fin] ∧ fin ∉ pre)
    ∧ (host.neverFails → vcpu.kvm.cfg_arch.aarch32_guest = false →
        (fin ∈ ops ↔ vcpu.kvm.cfg_arch.is_realm = true)) := by
  have hpre := opsIssued_initial
    (reset_vcpu_prefixOf abi false host okHost vcpu okHost_neverFails) w
  dsimp only
  refine ⟨?_, ?_, ?_⟩
  · intro hmem
    have hL := hpre.mem hmem
    revert hL
    by_cases hc : vcpu.cpu_id = 0 <;> cases h32 : vcpu.kvm.cfg_arch.aarch32_guest <;>
      cases hr : vcpu.kvm.cfg_arch.is_realm <;>
      cases ha : vcpu.kvm.arch.vcpu_affinity_cpuset <;>
      simp [kvm_cpu__reset_vcpu, reset_vcpu_aarch32, reset_vcpu_aarch64,
        set_one_reg_step, finalize_step, setaffinity_step, h32, hr, ha, hact, hc,
        okHost_neverFails _ _]
  · intro hmem
    have hL := hpre.mem hmem
    revert hL hpre
    generalize opsIssued (kvm_cpu__reset_vcpu abi false host vcpu) w = ops at hmem ⊢
    by_cases hc : vcpu.cpu_id = 0 <;> cases h32 : vcpu.kvm.cfg_arch.aarch32_guest <;>
      cases hr : vcpu.kvm.cfg_arch.is_realm <;>
      cases ha : vcpu.kvm.arch.vcpu_affinity_cpuset <;>
      simp [kvm_cpu__reset_vcpu, reset_vcpu_aarch32, reset_vcpu_aarch64,
        set_one_reg_step, finalize_step, setaffinity_step, h32, hr, ha, hact, hc,
        okHost_neverFails _ _] <;>
      intro hp <;>
      exact last_of_initial_of_mem hp hmem rfl (by simp [List.dropLast])
  · intro hok h32
    have hf : ∀ t op, host.fails t op = false := hok
    by_cases hc : vcpu.cpu_id = 0 <;>
      cases hr : vcpu.kvm.cfg_arch.is_realm <;>
      cases ha : vcpu.kvm.arch.vcpu_affinity_cpuset <;>
      simp [kvm_cpu__reset_vcpu, reset_vcpu_aarch64,
        set_one_reg_step, finalize_step, setaffinity_step, h32, hr, ha, hact, hc, hf]

/-- On the primary vCPU of the 64-bit example realm guest, with no failing call,
the finalize call is issued. -/
theorem reset_finalize_rec_witness :
    Op.KVM_ARM_VCPU_FINALIZE arm64Abi.KVM_ARM_VCPU_REC ∈
      opsIssued (kvm_cpu__reset_vcpu arm64Abi false okHost (sampleVcpu 0 false true))
        World.fresh :=
  ((reset_finalize_rec arm64Abi okHost (sampleVcpu 0 false true) World.fresh rfl).2.2
    okHost_neverFails rfl).2 rfl

/-- The finalize call for KVM_ARM_VCPU_REC is not issued for the 32-bit example
guest configured as a realm, and not for the 64-bit realm guest when the write of
x1 fails. -/
theorem reset_finalize_rec_not_issued :
    (sampleVcpu 0 true true).kvm.cfg_arch.is_realm = true
    ∧ Op.KVM_ARM_VCPU_FINALIZE arm64Abi.KVM_ARM_VCPU_REC ∉
        opsIssued (kvm_cpu__reset_vcpu arm64Abi false okHost (sampleVcpu 0 true true)) World.fresh
    ∧ (sampleVcpu 0 false true).kvm.cfg_arch.is_realm = true
    ∧ Op.KVM_ARM_VCPU_FINALIZE arm64Abi.KVM_ARM_VCPU_REC ∉
        opsIssued (kvm_cpu__reset_vcpu arm64Abi false
          (denyHost (.KVM_SET_ONE_REG (ARM64_CORE_REG arm64Abi (.regs_regs 1)) 0))
          (sampleVcpu 0 false true)) World.fresh := by
  decide

/-- C9, at the input where the code departs from it: in the build without
RIM_MEASURE, the reset of a secondary vCPU of a 64-bit guest writes pstate, x1,
x2 and x3 and also reports the triple (0, 0, 0) to the measurer. -/
theorem reset_secondary_aarch64_writes_and_reports :
    regWrites (opsIssued (kvm_cpu__reset_vcpu arm64Abi false okHost (sampleVcpu 1 false false))
      World.fresh) =
      [(ARM64_CORE_REG arm64Abi .regs_pstate, 0x3c5), (ARM64_CORE_REG arm64Abi (.regs_regs 1), 0),
       (ARM64_CORE_REG arm64Abi (.regs_regs 2), 0), (ARM64_CORE_REG arm64Abi (.regs_regs 3), 0)]
    ∧ measurerReports (opsIssued (kvm_cpu__reset_vcpu arm64Abi false okHost
        (sampleVcpu 1 false false)) World.fresh) = [(0, 0, 0)] := by
  decide

/-! ## Feature finalization -/

/-- What kvm_cpu__configure_features does in the build without RIM_MEASURE: the
capability query when disable_sve is clear, then the finalize call when the
answer is yes. -/
theorem configure_features_eval (abi : KvmAbi) (host : Host) (vcpu : Vcpu) (w : World) :
    kvm_cpu__configure_features abi false host vcpu w =
      let query := Op.kvm__supports_vm_extension abi.KVM_CAP_ARM_SVE
      let fin := Op.KVM_ARM_VCPU_FINALIZE abi.KVM_ARM_VCPU_SVE
      if vcpu.kvm.cfg_arch.disable_sve = true then .ret 0 w
      else if host.kvm__supports_vm_extension abi.KVM_CAP_ARM_SVE = false then
        .ret 0 { w with trace := w.trace ++ [query] }
      else if host.fails (w.trace ++ [query]) fin = true then
        .ret (-1) { w with trace := w.trace ++ [query, fin] }
      else
        .ret 0 { w with trace := w.trace ++ [query, fin] } := by
  cases hd : vcpu.kvm.cfg_arch.disable_sve <;>
    cases hc : host.kvm__supports_vm_extension abi.KVM_CAP_ARM_SVE <;>
    cases hf : host.fails (w.trace ++ [Op.kvm__supports_vm_extension abi.KVM_CAP_ARM_SVE])
      (Op.KVM_ARM_VCPU_FINALIZE abi.KVM_ARM_VCPU_SVE) <;>
    simp [kvm_cpu__configure_features, ioctl_KVM_ARM_VCPU_FINALIZE, hostCall, hd, hc, hf]

/-- C10 (amended): in the build without RIM_MEASURE, kvm_cpu__configure_features
issues KVM_ARM_VCPU_FINALIZE(KVM_ARM_VCPU_SVE) if and only if disable_sve is clear
and the VM-scoped KVM_CAP_ARM_SVE is present, which is exactly when
kvm_cpu__select_features, whenever it returns under the same configuration and
capability answers, has set the SVE bit. Its calls are, in order, the capability
query kvm__supports_vm_extension(KVM_CAP_ARM_SVE), made exactly when disable_sve
is clear, and then the finalize call. So when SVE was not requested it makes no
call on the vCPU (no call at all when disable_sve is set, the query alone
otherwise) and returns 0; when the finalize call is made it is made once, and the
function returns 0 if the call succeeds and -1 if it fails; it never aborts and
never changes a register. -/
theorem configure_features_sve (abi : KvmAbi) (host : Host) (vcpu : Vcpu) (w : World)
    (hb : abi.featureBitsOk) :
    let sve := !vcpu.kvm.cfg_arch.disable_sve &&
      host.kvm__supports_vm_extension abi.KVM_CAP_ARM_SVE
    let out := kvm_cpu__configure_features abi false host vcpu w
    let ops := opsIssued (kvm_cpu__configure_features abi false host vcpu) w
    let query := Op.kvm__supports_vm_extension abi.KVM_CAP_ARM_SVE
    let fin := Op.KVM_ARM_VCPU_FINALIZE abi.KVM_ARM_VCPU_SVE
    ops = (if vcpu.kvm.cfg_arch.disable_sve = false then [query] else [])
        ++ (if sve = true then [fin] else [])
    ∧ (fin ∈ ops ↔ sve = true)
    ∧ (∀ w0 init,
        (kvm_cpu__select_features abi false host vcpu.kvm { features0 := 0 } w0).value? =
          some init →
        (init.features0.testBit abi.KVM_ARM_VCPU_SVE = true ↔ fin ∈ ops))
    ∧ (sve = false → out = .ret 0 { w with trace := w.trace ++ ops } ∧ fin ∉ ops
        ∧ regWrites ops = [])
    ∧ (sve = true →
        out.value? = some (if host.fails (w.trace ++ [query]) fin then -1 else 0))
    ∧ out.returned = true
    ∧ out.world.regs = w.regs := by
  dsimp only
  have hmem : Op.KVM_ARM_VCPU_FINALIZE abi.KVM_ARM_VCPU_SVE ∈
      opsIssued (kvm_cpu__configure_features abi false host vcpu) w ↔
      (!vcpu.kvm.cfg_arch.disable_sve &&
        host.kvm__supports_vm_extension abi.KVM_CAP_ARM_SVE) = true := by
    rw [opsIssued_def, configure_features_eval]
    cases hd : vcpu.kvm.cfg_arch.disable_sve <;>
      cases hc : host.kvm__supports_vm_extension abi.KVM_CAP_ARM_SVE <;>
      cases hf : host.fails (w.trace ++ [Op.kvm__supports_vm_extension abi.KVM_CAP_ARM_SVE])
        (Op.KVM_ARM_VCPU_FINALIZE abi.KVM_ARM_VCPU_SVE) <;>
      simp [hd, hc, hf]
  refine ⟨?_, hmem, ?_, ?_, ?_, ?_, ?_⟩
  · rw [opsIssued_def, configure_features_eval]
    cases hd : vcpu.kvm.cfg_arch.disable_sve <;>
      cases hc : host.kvm__supports_vm_extension abi.KVM_CAP_ARM_SVE <;>
      cases hf : host.fails (w.trace ++ [Op.kvm__supports_vm_extension abi.KVM_CAP_ARM_SVE])
        (Op.KVM_ARM_VCPU_FINALIZE abi.KVM_ARM_VCPU_SVE) <;>
      simp [hd, hc, hf]
  · intro w0 init hi
    rw [hmem, (select_features_bits abi host vcpu.kvm w0 hb init hi).2.2.2.2.1]
  · rw [opsIssued_def, configure_features_eval]
    cases hd : vcpu.kvm.cfg_arch.disable_sve <;>
      cases hc : host.kvm__supports_vm_extension abi.KVM_CAP_ARM_SVE <;>
      simp [hd, hc, regWrites]
  · rw [configure_features_eval]
    cases hd : vcpu.kvm.cfg_arch.disable_sve <;>
      cases hc : host.kvm__supports_vm_extension abi.KVM_CAP_ARM_SVE <;>
      cases hf : host.fails (w.trace ++ [Op.kvm__supports_vm_extension abi.KVM_CAP_ARM_SVE])
        (Op.KVM_ARM_VCPU_FINALIZE abi.KVM_ARM_VCPU_SVE) <;>
      simp [hd, hc, hf, Outcome.value?]
  · rw [configure_features_eval]
    cases hd : vcpu.kvm.cfg_arch.disable_sve <;>
      cases hc : host.kvm__supports_vm_extension abi.KVM_CAP_ARM_SVE <;>
      cases hf : host.fails (w.trace ++ [Op.kvm__supports_vm_extension abi.KVM_CAP_ARM_SVE])
        (Op.KVM_ARM_VCPU_FINALIZE abi.KVM_ARM_VCPU_SVE) <;>
      simp [hd, hc, hf, Outcome.returned]
  · rw [configure_features_eval]
    cases hd : vcpu.kvm.cfg_arch.disable_sve <;>
      cases hc : host.kvm__supports_vm_extension abi.KVM_CAP_ARM_SVE <;>
      cases hf : host.fails (w.trace ++ [Op.kvm__supports_vm_extension abi.KVM_CAP_ARM_SVE])
        (Op.KVM_ARM_VCPU_FINALIZE abi.KVM_ARM_VCPU_SVE) <;>
      simp [hd, hc, hf]

/-- On a host with the SVE capability, for the example guest, the calls are the
capability query (KVM_CAP_ARM_SVE = 170) and then the finalize call for
KVM_ARM_VCPU_SVE = 4. -/
theorem configure_features_sve_witness :
    opsIssued (kvm_cpu__configure_features arm64Abi false okHost (sampleVcpu 0 false false))
      World.fresh = [Op.kvm__supports_vm_extension 170, Op.KVM_ARM_VCPU_FINALIZE 4] :=
  (configure_features_sve arm64Abi okHost (sampleVcpu 0 false false) World.fresh
    (by decide)).1

/-- On a host without the SVE capability, for the example guest (disable_sve
clear), SVE is not requested (kvm_cpu__select_features returns a word without
the SVE bit) and kvm_cpu__configure_features returns 0, yet it has issued a
hypervisor operation: the capability query. -/
theorem configure_features_queries_capability :
    (sampleVcpu 0 false false).kvm.cfg_arch.disable_sve = false
    ∧ (kvm_cpu__select_features arm64Abi false bareHost (sampleVcpu 0 false false).kvm
        { features0 := 0 } World.fresh).value? = some { features0 := 0 }
    ∧ (kvm_cpu__configure_features arm64Abi false bareHost (sampleVcpu 0 false false)
        World.fresh).value? = some 0
    ∧ opsIssued (kvm_cpu__configure_features arm64Abi false bareHost (sampleVcpu 0 false false))
        World.fresh = [Op.kvm__supports_vm_extension arm64Abi.KVM_CAP_ARM_SVE]
    ∧ opsIssued (kvm_cpu__configure_features arm64Abi false bareHost (sampleVcpu 0 false false))
        World.fresh ≠ [] := by
  decide

/-! ## Endianness -/

/-- C6: when the register reads succeed, kvm_cpu__get_endianness returns
VIRTIO_ENDIAN_BE or VIRTIO_ENDIAN_LE, and it returns VIRTIO_ENDIAN_BE exactly when
(PSR_MODE32_BIT and COMPAT_PSR_E_BIT = 0x200 are both set in psr) or
(PSR_MODE32_BIT is clear in psr and the selected bit of sctlr is set, the selected
bit being SCTLR_EL1_E0E_MASK = bit 24 when (psr & PSR_MODE_MASK) = PSR_MODE_EL0t
and SCTLR_EL1_EE_MASK = bit 25 otherwise). When PSR_MODE32_BIT is set the result
is the same in every state with the same psr, whatever sctlr is. On every host
the function leaves the register file as it was and issues only register reads. -/
theorem get_endianness_spec (abi : KvmAbi) (host : Host) (w : World)
    (hne : abi.VIRTIO_ENDIAN_BE ≠ abi.VIRTIO_ENDIAN_LE) (hok : host.neverFails) :
    let psr := w.regs (ARM64_CORE_REG abi .regs_pstate)
    let sctlr := w.regs abi.SYS_REG_SCTLR_EL1
    let out := kvm_cpu__get_endianness abi host w
    (out.value? = some abi.VIRTIO_ENDIAN_BE ∨ out.value? = some abi.VIRTIO_ENDIAN_LE)
    ∧ (out.value? = some abi.VIRTIO_ENDIAN_BE ↔
        (psr &&& PSR_MODE32_BIT ≠ 0 ∧ psr &&& COMPAT_PSR_E_BIT ≠ 0)
        ∨ (psr &&& PSR_MODE32_BIT = 0
            ∧ sctlr &&& (if psr &&& PSR_MODE_MASK = PSR_MODE_EL0t then SCTLR_EL1_E0E_MASK
                else SCTLR_EL1_EE_MASK) ≠ 0))
    ∧ (COMPAT_PSR_E_BIT = 0x200 ∧ SCTLR_EL1_E0E_MASK = 2 ^ 24 ∧ SCTLR_EL1_EE_MASK = 2 ^ 25)
    ∧ (psr &&& PSR_MODE32_BIT ≠ 0 → ∀ w2 : World,
        w2.regs (ARM64_CORE_REG abi .regs_pstate) = psr →
        (kvm_cpu__get_endianness abi host w2).value? = out.value?)
    ∧ (∀ h2 : Host, (kvm_cpu__get_endianness abi h2 w).world.regs = w.regs
        ∧ ∀ op ∈ opsIssued (kvm_cpu__get_endianness abi h2) w, ∃ id, op = .KVM_GET_ONE_REG id) := by
  have hf : ∀ t op, host.fails t op = false := hok
  dsimp only
  refine ⟨?_, ?_, by decide, ?_, ?_⟩
  · rw [get_endianness_eval]
    simp only [hf, Bool.false_eq_true, if_false]
    split_ifs <;> simp [Outcome.value?]
  · rw [get_endianness_eval]
    simp only [hf, Bool.false_eq_true, if_false]
    have hne' : abi.VIRTIO_ENDIAN_LE ≠ abi.VIRTIO_ENDIAN_BE := hne.symm
    split_ifs <;> simp_all [Outcome.value?]
  · intro h32 w2 hw2
    rw [get_endianness_eval, get_endianness_eval]
    simp only [hf, Bool.false_eq_true, if_false, hw2]
    rw [if_pos h32, if_pos h32]
    rfl
  · intro h2
    rw [opsIssued_def, get_endianness_eval]
    dsimp only
    split_ifs <;> simp

/-- A state whose psr has PSR_MODE32_BIT and COMPAT_PSR_E_BIT set (0x210) reads as
big-endian; the two endianness values of the arm64 headers differ. -/
theorem get_endianness_spec_witness :
    (kvm_cpu__get_endianness arm64Abi okHost
      { regs := fun _ => 0x210, trace := [] }).value? = some arm64Abi.VIRTIO_ENDIAN_BE :=
  (get_endianness_spec arm64Abi okHost { regs := fun _ => 0x210, trace := [] }
    (by decide) okHost_neverFails).2.1.2 (Or.inl ⟨by decide, by decide⟩)

end KvmCpu
